import Mathlib

/-!
Shallow embedding of `raiden/storage/sqlite.py` (classes `SQLiteStorage` and
`SerializedSQLiteStorage`).

The persistent store is embedded as lists of rows (one list per table), a
connection carries a committed database image, the current (possibly
uncommitted) image, the SQLite autocommit flag and the Python-level
`in_transaction` flag.  SQL clauses are embedded as list operations:
`WHERE` as `List.filter`, `ORDER BY identifier ASC` as an insertion sort by
the identifier key, and `ORDER BY identifier DESC LIMIT 1` as an argmax fold
over the key.  Fallible operations return `Except DBError`.

Python `sqlite3` connection semantics embedded here:
`with self.conn:` commits on successful exit of the block; a statement that
mutates data implicitly opens a transaction when the connection is in
autocommit mode; `COMMIT`/`ROLLBACK` executed through a cursor fail with an
`OperationalError` when no transaction is active; `Connection.commit()` is a
no-op when no transaction is active.
-/

/-- Python exception classes that the storage layer can raise.
`invalidDBData` and `invalidNumberInput` come from `raiden.exceptions`;
`valueError`, `assertionError` and `operationalError` are the builtin
`ValueError`, `AssertionError` and `sqlite3.OperationalError`; `userError`
stands for an arbitrary exception raised by caller code running inside an
open transaction scope. -/
inductive DBError where
  | invalidDBData
  | invalidNumberInput
  | valueError
  | assertionError
  | operationalError
  | userError
deriving DecidableEq, Repr

/-- Modelled from the spec: section 7 groups caller-argument failures
(pagination value negative or non-integral, range bound of the wrong type,
or the "latest" sentinel combined with an incompatible explicit bound) into
the single abstract error kind named InvalidArgument.  In the code these
surface as `InvalidNumberInput`, `ValueError` and `AssertionError`
respectively. -/
def DBError.isInvalidArgument : DBError → Bool
  | DBError.invalidNumberInput => true
  | DBError.valueError => true
  | DBError.assertionError => true
  | _ => false

/-- A JSON scalar value, as produced by `json_extract` and as bound into the
query by the field-equality filters. -/
inductive JVal where
  | jstr (s : String)
  | jint (n : Int)
deriving DecidableEq, Repr

/-- A stored payload viewed as a flat JSON object: an association list from
field name to value.  `json_extract(data, $.field)` is lookup of the first
binding of the field. -/
abbrev JObj := List (String × JVal)

/-- First binding of a field in a stored JSON payload; `Option.none` models
the SQL NULL that `json_extract` yields for an absent field (and NULL
compares unequal to every value). -/
def jsonExtract (o : JObj) (field : String) : Option JVal :=
  match o with
  | [] => Option.none
  | (f, v) :: rest => if f = field then some v else jsonExtract rest field

/-- Conjunction of the field-equality filters, as built by the
`where_clauses` loop: every listed field must extract to exactly the listed
value. -/
def matchesFilters (o : JObj) : List (String × JVal) → Bool
  | [] => true
  | (f, v) :: rest => (decide (jsonExtract o f = some v)) && matchesFilters o rest

/-- One row of the `state_changes` table. -/
structure StateChangeRow (α : Type) where
  identifier : Nat
  data : α
  log_time : String
deriving DecidableEq, Repr

/-- One row of the `state_snapshot` table. -/
structure SnapshotRow (α : Type) where
  identifier : Nat
  statechange_id : Nat
  data : α
deriving DecidableEq, Repr

/-- One row of the `state_events` table. -/
structure EventRow (α : Type) where
  identifier : Nat
  source_statechange_id : Nat
  log_time : String
  data : α
deriving DecidableEq, Repr

/-- The tables of the store (spec section 6), generic over the opaque
payload type `α`. -/
structure DB (α : Type) where
  settings : List (String × String)
  runs : List String
  state_changes : List (StateChangeRow α)
  state_snapshot : List (SnapshotRow α)
  state_events : List (EventRow α)
deriving DecidableEq, Repr

deriving instance DecidableEq for Except

/-- A freshly created, empty store. -/
def DB.empty {α : Type} : DB α :=
  { settings := [], runs := [], state_changes := [], state_snapshot := [], state_events := [] }

/-- The Python value passed for an identifier argument that accepts the
string sentinel: an explicit integer identifier, the string "latest", or
`None` (the absent value). -/
inductive PyIdent where
  | ofId (n : Nat)
  | latest
  | pyNone
deriving DecidableEq, Repr

/-- The Python value passed for `limit`/`offset`: an integer, or some
non-integer value (float, string, ...) for which `isinstance(x, int)` is
false.  `Option.none` at the call site models the absent argument. -/
inductive PyNum where
  | int (n : Int)
  | nonInt
deriving DecidableEq, Repr

/-- The validation `limit is not None and (not isinstance(limit, int) or
limit < 0)` from `_query_events`, shared by the `limit` and `offset`
arguments. -/
def invalidPageArg : Option PyNum → Bool
  | Option.none => false
  | some PyNum.nonInt => true
  | some (PyNum.int n) => decide (n < 0)

/-- Result record of `get_latest_event_by_data_field`; `data = Option.none`
models the Python `None` of the zero sentinel. -/
structure EventRecord (α : Type) where
  event_identifier : Nat
  state_change_identifier : Nat
  data : Option α
deriving DecidableEq, Repr

/-- Result record of `get_latest_state_change_by_data_field`. -/
structure StateChangeRecord (α : Type) where
  state_change_identifier : Nat
  data : Option α
deriving DecidableEq, Repr

/-- Modelled from the spec: `TimestampedEvent` lives in
`raiden/storage/utils`, which is not part of the source tree; the spec
describes the events page as an ordered sequence of (payload, log_time)
pairs, and the field names are fixed by their uses in
`SerializedSQLiteStorage.get_events_with_timestamps`. -/
structure TimestampedEvent (α : Type) where
  wrapped_event : α
  log_time : String
deriving DecidableEq, Repr

/-- Embedding of `ORDER BY key DESC LIMIT 1` over the rows that survived the
`WHERE` clause: the row with the maximal key (keys are primary-key values,
hence unique in any reachable store). -/
def maxByKey {ρ : Type} (f : ρ → Nat) : List ρ → Option ρ
  | [] => Option.none
  | x :: xs =>
    match maxByKey f xs with
    | Option.none => some x
    | some y => if f x < f y then some y else some x

/-- Insertion step of the ascending sort by key. -/
def insertKeyed {ρ : Type} (f : ρ → Nat) (x : ρ) : List ρ → List ρ
  | [] => [x]
  | y :: ys => if f x ≤ f y then x :: y :: ys else y :: insertKeyed f x ys

/-- Embedding of `ORDER BY key ASC`: insertion sort by the key. -/
def sortByKey {ρ : Type} (f : ρ → Nat) : List ρ → List ρ
  | [] => []
  | x :: xs => insertKeyed f x (sortByKey f xs)

/-- The latest DB version (`RAIDEN_DB_VERSION = 18`). -/
def RAIDEN_DB_VERSION : Int := 18

/-- Decimal value of a digit character, absent for a non-digit. -/
def digitVal? (c : Char) : Option Nat :=
  if c.isDigit then some (c.toNat - 48) else Option.none

/-- Decimal accumulation over a digit list, absent on any non-digit. -/
def digitsToNatAux : List Char → Nat → Option Nat
  | [], acc => some acc
  | c :: cs, acc =>
    match digitVal? c with
    | some d => digitsToNatAux cs (acc * 10 + d)
    | Option.none => Option.none

/-- Embedding of the Python conversion `int(text)` for the canonical
decimal forms this layer writes (an optional minus sign followed by
digits); any other text yields `Option.none`, the `ValueError` case. -/
def pyInt? (s : String) : Option Int :=
  match s.data with
  | [] => Option.none
  | c :: cs =>
    if c = '-' then
      match cs with
      | [] => Option.none
      | _ => (digitsToNatAux cs 0).map (fun n => -(n : Int))
    else (digitsToNatAux (c :: cs) 0).map (fun n => (n : Int))

/-- `SQLiteStorage.get_version`: `SELECT value FROM settings WHERE
name="version"`; an empty result means the store is at the current version;
otherwise the first value converted by `int(...)` (which raises `ValueError`
on a non-numeric string). -/
def SQLiteStorage.get_version {α : Type} (db : DB α) : Except DBError Int :=
  match db.settings.filter (fun p => p.1 == "version") with
  | [] => Except.ok RAIDEN_DB_VERSION
  | (_, v) :: _ =>
    match pyInt? v with
    | some n => Except.ok n
    | Option.none => Except.error DBError.valueError

/-- Resolution of a target identifier inside
`get_snapshot_closest_to_state_change`: the sentinel "latest" becomes the
result of `SELECT identifier FROM state_changes ORDER BY identifier DESC
LIMIT 1`, or `0` when the table is empty.  (`pyNone` is rejected by the
validation before this is ever consulted.) -/
def resolveStateChangeTarget {α : Type} (db : DB α) : PyIdent → Nat
  | PyIdent.ofId n => n
  | PyIdent.latest =>
    match maxByKey (fun r => r.identifier) db.state_changes with
    | some r => r.identifier
    | Option.none => 0
  | PyIdent.pyNone => 0

/-- The rows surviving the `WHERE statechange_id <= ?` clause of
`get_snapshot_closest_to_state_change`. -/
def closestSnapshotCandidates {α : Type} (db : DB α) (n : Nat) : List (SnapshotRow α) :=
  db.state_snapshot.filter (fun r => decide (r.statechange_id ≤ n))

/-- The query `SELECT statechange_id, data FROM state_snapshot WHERE
statechange_id <= ? ORDER BY identifier DESC LIMIT 1` of
`get_snapshot_closest_to_state_change`, with the `(0, None)` fallback when
no row qualifies. -/
def snapshotClosestQuery {α : Type} (db : DB α) (n : Nat) : Nat × Option α :=
  match maxByKey (fun r => r.identifier) (closestSnapshotCandidates db n) with
  | some r => (r.statechange_id, some r.data)
  | Option.none => (0, Option.none)

/-- `SQLiteStorage.get_snapshot_closest_to_state_change`: validate the
target, resolve "latest", then run the snapshot query. -/
def SQLiteStorage.get_snapshot_closest_to_state_change {α : Type} (db : DB α) (target : PyIdent) :
    Except DBError (Nat × Option α) :=
  match target with
  | PyIdent.pyNone => Except.error DBError.valueError
  | t => Except.ok (snapshotClosestQuery db (resolveStateChangeTarget db t))

/-- `SQLiteStorage.get_statechanges_by_identifier`: both bounds are
validated to be integers or "latest" (anything else, including the absent
`None`, raises `ValueError`); a "latest" lower bound then hits
`assert to_identifier is None`, which always fails because `None` was
already rejected by the validation, raising `AssertionError`; an explicit lower bound with upper bound
"latest" runs the open-ended `identifier >= ?` query and otherwise the
`BETWEEN ? AND ?` query, both `ORDER BY identifier ASC`, returning the
`data` column. -/
def SQLiteStorage.get_statechanges_by_identifier {α : Type} (db : DB α) (fromI toI : PyIdent) :
    Except DBError (List α) :=
  match fromI with
  | PyIdent.pyNone => Except.error DBError.valueError
  | PyIdent.latest =>
    match toI with
    | PyIdent.pyNone => Except.error DBError.valueError
    | _ => Except.error DBError.assertionError
  | PyIdent.ofId f =>
    match toI with
    | PyIdent.pyNone => Except.error DBError.valueError
    | PyIdent.latest =>
      Except.ok
        ((sortByKey (fun r => r.identifier)
            (db.state_changes.filter (fun r => decide (f ≤ r.identifier)))).map
          (fun r => r.data))
    | PyIdent.ofId t =>
      Except.ok
        ((sortByKey (fun r => r.identifier)
            (db.state_changes.filter
              (fun r => decide (f ≤ r.identifier ∧ r.identifier ≤ t)))).map
          (fun r => r.data))

/-- The `state_events` rows whose payload satisfies every field-equality
filter (the `WHERE` clause built by the `where_clauses` loop of
`get_latest_event_by_data_field`). -/
def evMatches (db : DB JObj) (filters : List (String × JVal)) : List (EventRow JObj) :=
  db.state_events.filter (fun r => matchesFilters r.data filters)

/-- The `state_changes` rows whose payload satisfies every field-equality
filter (the `WHERE` clause built by the `where_clauses` loop of
`get_latest_state_change_by_data_field`). -/
def scMatches (db : DB JObj) (filters : List (String × JVal)) : List (StateChangeRow JObj) :=
  db.state_changes.filter (fun r => matchesFilters r.data filters)

/-- `SQLiteStorage.get_latest_event_by_data_field`.  With an empty filter
mapping `" AND ".join(where_clauses)` is the empty string and the query text
degenerates to `... WHERE ORDER BY identifier DESC LIMIT 1`, which the
engine rejects as a syntax error at `cursor.execute` time
(`sqlite3.OperationalError`), before any row is fetched.  Otherwise the
matching row of maximal identifier is returned, or the zero sentinel record
when none matches. -/
def SQLiteStorage.get_latest_event_by_data_field (db : DB JObj) (filters : List (String × JVal)) :
    Except DBError (EventRecord JObj) :=
  match filters with
  | [] => Except.error DBError.operationalError
  | f0 :: rest =>
    match maxByKey (fun r => r.identifier) (evMatches db (f0 :: rest)) with
    | some r => Except.ok ⟨r.identifier, r.source_statechange_id, some r.data⟩
    | Option.none => Except.ok ⟨0, 0, Option.none⟩

/-- `SQLiteStorage.get_latest_state_change_by_data_field`; the empty-filter
case degenerates to `... WHERE  ORDER BY identifier DESC LIMIT 1`, a syntax
error at `cursor.execute` time, exactly as for the event variant. -/
def SQLiteStorage.get_latest_state_change_by_data_field (db : DB JObj) (filters : List (String × JVal)) :
    Except DBError (StateChangeRecord JObj) :=
  match filters with
  | [] => Except.error DBError.operationalError
  | f0 :: rest =>
    match maxByKey (fun r => r.identifier) (scMatches db (f0 :: rest)) with
    | some r => Except.ok ⟨r.identifier, some r.data⟩
    | Option.none => Except.ok ⟨0, Option.none⟩

/-- `SQLiteStorage._query_events`: validate `limit` and `offset`, normalise
the absent values (`-1` and `0`), then `SELECT data, log_time FROM
state_events ORDER BY identifier ASC LIMIT ? OFFSET ?` — a negative SQL
LIMIT means no upper bound. -/
def SQLiteStorage.query_events {α : Type} (db : DB α) (limit offset : Option PyNum) :
    Except DBError (List (α × String)) :=
  if invalidPageArg limit then Except.error DBError.invalidNumberInput
  else if invalidPageArg offset then Except.error DBError.invalidNumberInput
  else
    let lim : Int := match limit with | some (PyNum.int n) => n | _ => -1
    let off : Int := match offset with | some (PyNum.int n) => n | _ => 0
    let rows := (sortByKey (fun r => r.identifier) db.state_events).drop off.toNat
    let rows := if lim < 0 then rows else rows.take lim.toNat
    Except.ok (rows.map (fun r => (r.data, r.log_time)))

/-- `SQLiteStorage.get_events_with_timestamps`: each row of `_query_events`
wrapped as a `TimestampedEvent`. -/
def SQLiteStorage.get_events_with_timestamps {α : Type} (db : DB α) (limit offset : Option PyNum) :
    Except DBError (List (TimestampedEvent α)) :=
  (SQLiteStorage.query_events db limit offset).map (fun l => l.map (fun e => ⟨e.1, e.2⟩))

/-- The connection state of a `SQLiteStorage` instance: the committed
on-disk image, the current image seen through the connection, SQLite's own
transaction flag (`sqlite3_get_autocommit` is false exactly when
`sqliteTxnOpen` is true) and the Python-level `self.in_transaction` flag
read by `maybe_commit`. -/
structure Conn (α : Type) where
  committed : DB α
  current : DB α
  sqliteTxnOpen : Bool
  in_transaction : Bool
deriving DecidableEq, Repr

/-- `Connection.commit()`: a no-op in autocommit mode, otherwise makes the
current image durable and returns to autocommit mode. -/
def Conn.commit {α : Type} (c : Conn α) : Conn α :=
  if c.sqliteTxnOpen then
    { c with committed := c.current, sqliteTxnOpen := false }
  else c

/-- `SQLiteStorage.maybe_commit`: commit unless a transaction scope is
open. -/
def Conn.maybe_commit {α : Type} (c : Conn α) : Conn α :=
  if c.in_transaction then c else c.commit

/-- Modelled from the spec: the `identifier` columns are autoincrement
primary keys assigned by the store and never reused (the DDL script
`DB_SCRIPT_CREATE_TABLES` lives in `raiden/storage/utils`, outside the
source tree).  Rows are never deleted by this layer, so the next assigned
identifier is one more than the largest identifier present. -/
def nextStateChangeId {α : Type} (db : DB α) : Nat :=
  db.state_changes.foldr (fun r acc => max r.identifier acc) 0 + 1

/-- `SQLiteStorage.write_state_change`: inside `with self.write_lock,
self.conn:` the row is inserted (a data-modifying statement, so a
transaction is implicitly opened when in autocommit mode) and
`cursor.lastrowid` is read back; leaving the `with self.conn` block then
commits unconditionally — also when a transaction scope is open. -/
def Conn.write_state_change {α : Type} (c : Conn α) (state_change : α) (log_time : String) :
    Conn α × Nat :=
  let i := nextStateChangeId c.current
  let db :=
    { c.current with state_changes := c.current.state_changes ++ [⟨i, state_change, log_time⟩] }
  (Conn.commit { c with current := db, sqliteTxnOpen := true }, i)

/-- `SQLiteStorage.update_snapshot`: `UPDATE state_snapshot SET data=?
WHERE identifier=?` followed by `maybe_commit`; the statement implicitly
opens a transaction and touches exactly the rows whose identifier matches
(possibly none).  The embedding is total: no error path exists, matching
the code, so the result is always `Except.ok`. -/
def Conn.update_snapshot {α : Type} (c : Conn α) (identifier : Nat) (new_snapshot : α) :
    Except DBError (Conn α) :=
  let db := c.current
  let db :=
    { db with
      state_snapshot :=
        db.state_snapshot.map
          (fun r => if r.identifier = identifier then { r with data := new_snapshot } else r) }
  Except.ok (Conn.maybe_commit { c with current := db, sqliteTxnOpen := true })

/-- `SQLiteStorage.transaction`: set `in_transaction`, execute `BEGIN`
(which fails when a transaction is already active), run the body, `COMMIT`
on success; on any error `ROLLBACK` and re-raise — but `ROLLBACK` itself
fails with an `OperationalError` (replacing the original error) when no
transaction is active at that point; the `finally` clause clears
`in_transaction` on every path.  The body returns its final connection
state together with `Option.none` on success or the raised error. -/
def Conn.transaction {α : Type} (body : Conn α → Conn α × Option DBError) (c0 : Conn α) :
    Conn α × Option DBError :=
  let c1 : Conn α := { c0 with in_transaction := true }
  let step : Conn α × Option DBError :=
    if c1.sqliteTxnOpen then (c1, some DBError.operationalError)
    else
      match body { c1 with sqliteTxnOpen := true } with
      | (c2, Option.none) =>
        if c2.sqliteTxnOpen then
          ({ c2 with committed := c2.current, sqliteTxnOpen := false }, Option.none)
        else (c2, some DBError.operationalError)
      | (c2, some e) => (c2, some e)
  match step with
  | (c3, Option.none) => ({ c3 with in_transaction := false }, Option.none)
  | (c3, some e) =>
    if c3.sqliteTxnOpen then
      ({ c3 with current := c3.committed, sqliteTxnOpen := false, in_transaction := false },
        some e)
    else ({ c3 with in_transaction := false }, some DBError.operationalError)

/-- The caller-supplied codec of the Serialization Boundary. -/
structure Serializer (β α : Type) where
  serialize : β → α
  deserialize : α → β

/-- `SerializedSQLiteStorage.write_state_change`: serialize, then delegate
to the raw write. -/
def Serializer.write_state_change {β α : Type} (s : Serializer β α) (c : Conn α) (o : β)
    (log_time : String) : Conn α × Nat :=
  Conn.write_state_change c (s.serialize o) log_time

/-- `SerializedSQLiteStorage.get_statechanges_by_identifier`: delegate to
the raw query, then deserialize every returned payload. -/
def Serializer.get_statechanges_by_identifier {β α : Type} (s : Serializer β α) (db : DB α)
    (fromI toI : PyIdent) : Except DBError (List β) :=
  (SQLiteStorage.get_statechanges_by_identifier db fromI toI).map (fun l => l.map s.deserialize)

/-! Concrete stores and connections used by the counterexamples and the
witness theorems. -/

/-- Store with five state changes and two snapshots whose
`statechange_id` values are not monotone in the snapshot identifier: the
snapshot taken later (identifier 2) refers back to state change 3, while
the earlier snapshot (identifier 1) refers to state change 5. -/
def dbC3cex : DB String :=
  { settings := [], runs := [],
    state_changes := [⟨1, "s1", "t"⟩, ⟨2, "s2", "t"⟩, ⟨3, "s3", "t"⟩, ⟨4, "s4", "t"⟩,
      ⟨5, "s5", "t"⟩],
    state_snapshot := [⟨1, 5, "snapA"⟩, ⟨2, 3, "snapB"⟩],
    state_events := [] }

/-- The snapshot example of the spec: state changes 1, 2, 3 with snapshots
taken after 1 and after 3. -/
def dbSnapEx : DB String :=
  { settings := [], runs := [],
    state_changes := [⟨1, "s1", "t"⟩, ⟨2, "s2", "t"⟩, ⟨3, "s3", "t"⟩],
    state_snapshot := [⟨1, 1, "snap1"⟩, ⟨2, 3, "snap3"⟩],
    state_events := [] }

/-- Store with three state changes, payloads p1, p2, p3. -/
def dbRange : DB String :=
  { settings := [], runs := [],
    state_changes := [⟨1, "p1", "t1"⟩, ⟨2, "p2", "t2"⟩, ⟨3, "p3", "t3"⟩],
    state_snapshot := [], state_events := [] }

/-- Store with five events, payloads e1 .. e5. -/
def dbEvents5 : DB String :=
  { settings := [], runs := [],
    state_changes := [⟨1, "s", "t"⟩],
    state_snapshot := [],
    state_events := [⟨1, 1, "t1", "e1"⟩, ⟨2, 1, "t2", "e2"⟩, ⟨3, 1, "t3", "e3"⟩,
      ⟨4, 1, "t4", "e4"⟩, ⟨5, 1, "t5", "e5"⟩] }

/-- Store whose settings table holds the version row 7. -/
def dbVersion7 : DB String :=
  { settings := [("version", "7")], runs := [], state_changes := [], state_snapshot := [],
    state_events := [] }

/-- The filter example of the spec: two state changes whose payloads decode
to type A with amounts 5 and 7, plus one event. -/
def dbFilters : DB JObj :=
  { settings := [], runs := [],
    state_changes :=
      [⟨1, [("type", JVal.jstr "A"), ("amount", JVal.jint 5)], "t1"⟩,
       ⟨2, [("type", JVal.jstr "A"), ("amount", JVal.jint 7)], "t2"⟩],
    state_snapshot := [],
    state_events := [⟨1, 1, "t1", [("type", JVal.jstr "A")]⟩] }

/-- A freshly opened connection over an empty store, in autocommit mode. -/
def connEmptyStr : Conn String :=
  { committed := DB.empty, current := DB.empty, sqliteTxnOpen := false, in_transaction := false }

/-- A transaction-scope body that appends one state change through
`write_state_change` and then raises, before appending its events. -/
def scopeBody : Conn String → Conn String × Option DBError := fun c =>
  ((Conn.write_state_change c "sc-payload" "t0").1, some DBError.userError)

/-- Store with one state change and one snapshot (identifier 1). -/
def dbOneSnap : DB String :=
  { settings := [], runs := [],
    state_changes := [⟨1, "s1", "t"⟩], state_snapshot := [⟨1, 1, "snap1"⟩],
    state_events := [] }

/-- Idle autocommit connection over `dbOneSnap`. -/
def connOneSnap : Conn String :=
  { committed := dbOneSnap, current := dbOneSnap, sqliteTxnOpen := false,
    in_transaction := false }

/-- A codec on natural numbers whose deserialize inverts its serialize. -/
def natSerializer : Serializer Nat Nat :=
  { serialize := fun n => n + 1, deserialize := fun n => n - 1 }

/-- A freshly opened connection over an empty store of Nat payloads. -/
def connEmptyNat : Conn Nat :=
  { committed := DB.empty, current := DB.empty, sqliteTxnOpen := false, in_transaction := false }

/-! Helper lemmas about the query-clause embeddings. -/

/-- The row delivered by `ORDER BY key DESC LIMIT 1` is a member of maximal
key, and it is absent exactly on the empty row set. -/
theorem maxByKey_spec {ρ : Type} (f : ρ → Nat) (l : List ρ) :
    (l = [] ∧ maxByKey f l = Option.none) ∨
      (∃ r, maxByKey f l = some r ∧ r ∈ l ∧ ∀ x ∈ l, f x ≤ f r) := by
  induction l with
  | nil => exact Or.inl ⟨rfl, rfl⟩
  | cons x xs ih =>
    right
    rcases ih with ⟨hnil, hmax⟩ | ⟨r, hmax, hmem, hle⟩
    · subst hnil
      refine ⟨x, rfl, List.mem_cons_self x [], ?_⟩
      intro z hz
      rcases List.mem_cons.mp hz with rfl | hz
      · exact Nat.le_refl _
      · cases hz
    · by_cases hcmp : f x < f r
      · refine ⟨r, ?_, List.mem_cons_of_mem x hmem, ?_⟩
        · simp only [maxByKey, hmax, if_pos hcmp]
        · intro z hz
          rcases List.mem_cons.mp hz with rfl | hz
          · exact Nat.le_of_lt hcmp
          · exact hle z hz
      · refine ⟨x, ?_, List.mem_cons_self x xs, ?_⟩
        · simp only [maxByKey, hmax, if_neg hcmp]
        · intro z hz
          rcases List.mem_cons.mp hz with rfl | hz
          · exact Nat.le_refl _
          · exact Nat.le_trans (hle z hz) (Nat.le_of_not_lt hcmp)

/-- Inserting an element below every element of a list keeps it in front. -/
theorem insertKeyed_of_forall_le {ρ : Type} (f : ρ → Nat) (x : ρ) (l : List ρ)
    (h : ∀ y ∈ l, f x ≤ f y) : insertKeyed f x l = x :: l := by
  cases l with
  | nil => rfl
  | cons y ys => simp only [insertKeyed, if_pos (h y (List.mem_cons_self y ys))]

/-- `ORDER BY key ASC` leaves an already ascending row list unchanged. -/
theorem sortByKey_eq_self {ρ : Type} (f : ρ → Nat) (l : List ρ)
    (h : l.Pairwise (fun a b => f a ≤ f b)) : sortByKey f l = l := by
  induction l with
  | nil => rfl
  | cons x xs ih =>
    rw [sortByKey, ih (List.pairwise_cons.mp h).2]
    exact insertKeyed_of_forall_le f x xs (List.pairwise_cons.mp h).1

/-- Every identifier present in the table is below the next assigned one. -/
theorem identifier_lt_nextStateChangeId {α : Type} (db : DB α) (r : StateChangeRow α)
    (h : r ∈ db.state_changes) : r.identifier < nextStateChangeId db := by
  have hle : ∀ l : List (StateChangeRow α), r ∈ l →
      r.identifier ≤ l.foldr (fun x acc => max x.identifier acc) 0 := by
    intro l hl
    induction l with
    | nil => cases hl
    | cons x xs ih =>
      rcases List.mem_cons.mp hl with rfl | h2
      · exact Nat.le_max_left _ _
      · exact Nat.le_trans (ih h2) (Nat.le_max_right _ _)
  exact Nat.lt_succ_of_le (hle _ h)

/-- An update touching no row maps the table to itself. -/
theorem map_update_no_match {α : Type} (l : List (SnapshotRow α)) (i : Nat) (p : α)
    (h : ∀ r ∈ l, r.identifier ≠ i) :
    l.map (fun r => if r.identifier = i then { r with data := p } else r) = l := by
  induction l with
  | nil => rfl
  | cons x xs ih =>
    simp only [List.map_cons]
    rw [if_neg (h x (List.mem_cons_self x xs)),
      ih (fun r hr => h r (List.mem_cons_of_mem x hr))]

/-! Claim theorems. -/

/-- Claim C1 (code_bug evidence): a transaction scope whose body appends a
StateChange through `write_state_change` and then raises does NOT leave the
store as it was.  The `with self.conn` block inside `write_state_change`
commits on exit even while the scope is open, so the row is already durable
when the error occurs; the subsequent `ROLLBACK` finds no active
transaction and itself fails, and the `OperationalError` it raises replaces
the original error.  Evaluated on an empty store: one committed StateChange
row remains and the surfaced error is not the one the body raised. -/
theorem transaction_scope_commit_leak :
    (Conn.transaction scopeBody connEmptyStr).1.committed.state_changes =
      [⟨1, "sc-payload", "t0"⟩] ∧
    (Conn.transaction scopeBody connEmptyStr).2 = some DBError.operationalError ∧
    DBError.operationalError ≠ DBError.userError := by
  refine ⟨rfl, rfl, by decide⟩

/-- Claim C2: calling `get_statechanges_by_identifier` with the lower bound
"latest" and any present (non-`None`) upper bound fails, and the failure is
of the spec's InvalidArgument kind (here the `AssertionError` of
`assert to_identifier is None`); being a pure read, the call has no side
effect on the store. -/
theorem latest_from_requires_absent_to {α : Type} (db : DB α) (toI : PyIdent)
    (h : toI ≠ PyIdent.pyNone) :
    SQLiteStorage.get_statechanges_by_identifier db PyIdent.latest toI =
      Except.error DBError.assertionError ∧
    DBError.isInvalidArgument DBError.assertionError = true := by
  refine ⟨?_, rfl⟩
  cases toI with
  | ofId n => rfl
  | latest => rfl
  | pyNone => exact absurd rfl h

/-- Witness for C2 at a concrete store and upper bound. -/
theorem latest_from_requires_absent_to_witness :
    SQLiteStorage.get_statechanges_by_identifier dbRange PyIdent.latest (PyIdent.ofId 3) =
      Except.error DBError.assertionError ∧
    DBError.isInvalidArgument DBError.assertionError = true :=
  latest_from_requires_absent_to dbRange (PyIdent.ofId 3) (by decide)

/-- Claim C3 (counterexample): the claim says the returned snapshot is the
one with the greatest `state_change_identifier` that is at most the target.
On `dbC3cex` with target 10 the code returns `(3, snapB)` — the snapshot
with the greatest snapshot identifier among the qualifying rows — although
the qualifying snapshot `⟨1, 5, snapA⟩` has the strictly greater
state-change identifier 5 ≤ 10.  The query orders by the snapshot
`identifier` column, not by `statechange_id`. -/
theorem snapshot_closest_not_greatest_statechange :
    SQLiteStorage.get_snapshot_closest_to_state_change dbC3cex (PyIdent.ofId 10) =
      Except.ok (3, some "snapB") ∧
    (⟨1, 5, "snapA"⟩ : SnapshotRow String) ∈ dbC3cex.state_snapshot ∧
    5 ≤ 10 ∧ (3 : Nat) < 5 := by
  refine ⟨rfl, by decide, by decide, by decide⟩

/-- Claim C3 (amended): for every valid target (explicit identifier, or
"latest" resolved by `resolveStateChangeTarget` to the current maximum
StateChange identifier or 0), the call succeeds and returns either the
`(0, absent)` sentinel — exactly when no snapshot has
`statechange_id ≤ target` — or the pair `(statechange_id, payload)` of the
qualifying snapshot with the greatest snapshot identifier (the most
recently taken qualifying snapshot). -/
theorem snapshot_closest_amended {α : Type} (db : DB α) (target : PyIdent)
    (h : target ≠ PyIdent.pyNone) :
    ∃ res, SQLiteStorage.get_snapshot_closest_to_state_change db target = Except.ok res ∧
      ((closestSnapshotCandidates db (resolveStateChangeTarget db target) = [] ∧
          res = (0, Option.none)) ∨
        (∃ r, r ∈ closestSnapshotCandidates db (resolveStateChangeTarget db target) ∧
          res = (r.statechange_id, some r.data) ∧
          ∀ x ∈ closestSnapshotCandidates db (resolveStateChangeTarget db target),
            x.identifier ≤ r.identifier)) := by
  have hq : ∀ n : Nat,
      (closestSnapshotCandidates db n = [] ∧ snapshotClosestQuery db n = (0, Option.none)) ∨
        (∃ r, r ∈ closestSnapshotCandidates db n ∧
          snapshotClosestQuery db n = (r.statechange_id, some r.data) ∧
          ∀ x ∈ closestSnapshotCandidates db n, x.identifier ≤ r.identifier) := by
    intro n
    rcases maxByKey_spec (fun r => r.identifier) (closestSnapshotCandidates db n) with
      ⟨hnil, hmax⟩ | ⟨r, hmax, hmem, hle⟩
    · exact Or.inl ⟨hnil, by simp only [snapshotClosestQuery, hmax]⟩
    · exact Or.inr ⟨r, hmem, by simp only [snapshotClosestQuery, hmax], hle⟩
  cases target with
  | pyNone => exact absurd rfl h
  | latest =>
    rcases hq (resolveStateChangeTarget db PyIdent.latest) with ⟨hnil, hres⟩ | ⟨r, hmem, hres, hle⟩
    · exact ⟨(0, Option.none), by rw [show SQLiteStorage.get_snapshot_closest_to_state_change db
        PyIdent.latest = Except.ok (snapshotClosestQuery db
        (resolveStateChangeTarget db PyIdent.latest)) from rfl, hres], Or.inl ⟨hnil, rfl⟩⟩
    · exact ⟨(r.statechange_id, some r.data), by rw [show
        SQLiteStorage.get_snapshot_closest_to_state_change db PyIdent.latest =
        Except.ok (snapshotClosestQuery db (resolveStateChangeTarget db PyIdent.latest)) from rfl,
        hres], Or.inr ⟨r, hmem, rfl, hle⟩⟩
  | ofId m =>
    rcases hq (resolveStateChangeTarget db (PyIdent.ofId m)) with ⟨hnil, hres⟩ | ⟨r, hmem, hres, hle⟩
    · exact ⟨(0, Option.none), by rw [show SQLiteStorage.get_snapshot_closest_to_state_change db
        (PyIdent.ofId m) = Except.ok (snapshotClosestQuery db
        (resolveStateChangeTarget db (PyIdent.ofId m))) from rfl, hres], Or.inl ⟨hnil, rfl⟩⟩
    · exact ⟨(r.statechange_id, some r.data), by rw [show
        SQLiteStorage.get_snapshot_closest_to_state_change db (PyIdent.ofId m) =
        Except.ok (snapshotClosestQuery db (resolveStateChangeTarget db (PyIdent.ofId m))) from
        rfl, hres], Or.inr ⟨r, hmem, rfl, hle⟩⟩

/-- Witness for C3 on the spec example, target 2: resolves to the snapshot
taken after state change 1. -/
theorem snapshot_closest_amended_witness :
    ∃ res, SQLiteStorage.get_snapshot_closest_to_state_change dbSnapEx (PyIdent.ofId 2) =
        Except.ok res ∧
      ((closestSnapshotCandidates dbSnapEx (resolveStateChangeTarget dbSnapEx (PyIdent.ofId 2)) =
            [] ∧ res = (0, Option.none)) ∨
        (∃ r, r ∈ closestSnapshotCandidates dbSnapEx
            (resolveStateChangeTarget dbSnapEx (PyIdent.ofId 2)) ∧
          res = (r.statechange_id, some r.data) ∧
          ∀ x ∈ closestSnapshotCandidates dbSnapEx
              (resolveStateChangeTarget dbSnapEx (PyIdent.ofId 2)),
            x.identifier ≤ r.identifier)) :=
  snapshot_closest_amended dbSnapEx (PyIdent.ofId 2) (by decide)

/-- Claim C4: over a store whose state changes are ascending by identifier
(the autoincrement invariant), an explicit range `[f, t]` with `f ≤ t`
returns exactly the payloads of the state changes with `f ≤ identifier ≤ t`
in ascending identifier order, and upper bound "latest" returns exactly the
payloads with `identifier ≥ f`, ascending, with no upper bound. -/
theorem state_changes_in_range_spec {α : Type} (db : DB α) (f t : Nat)
    (hsort : db.state_changes.Pairwise (fun a b => a.identifier ≤ b.identifier))
    (hft : f ≤ t) :
    SQLiteStorage.get_statechanges_by_identifier db (PyIdent.ofId f) (PyIdent.ofId t) =
      Except.ok ((db.state_changes.filter
        (fun r => decide (f ≤ r.identifier ∧ r.identifier ≤ t))).map (fun r => r.data)) ∧
    SQLiteStorage.get_statechanges_by_identifier db (PyIdent.ofId f) PyIdent.latest =
      Except.ok ((db.state_changes.filter
        (fun r => decide (f ≤ r.identifier))).map (fun r => r.data)) := by
  constructor
  · simp only [SQLiteStorage.get_statechanges_by_identifier]
    rw [sortByKey_eq_self _ _ (hsort.filter _)]
  · simp only [SQLiteStorage.get_statechanges_by_identifier]
    rw [sortByKey_eq_self _ _ (hsort.filter _)]

/-- Witness for C4 on the three-state-change store and the two spec range
examples. -/
theorem state_changes_in_range_spec_witness :
    SQLiteStorage.get_statechanges_by_identifier dbRange (PyIdent.ofId 1) (PyIdent.ofId 3) =
      Except.ok ["p1", "p2", "p3"] ∧
    SQLiteStorage.get_statechanges_by_identifier dbRange (PyIdent.ofId 1) PyIdent.latest =
      Except.ok ["p1", "p2", "p3"] :=
  state_changes_in_range_spec dbRange 1 3 (by decide) (by decide)

/-- Claim C5: over a store whose events are ascending by identifier (the
autoincrement invariant), `get_events_with_timestamps` fails with the
spec's InvalidArgument error (`InvalidNumberInput`) whenever `limit` or
`offset` is present but negative or non-integral, and otherwise returns the
stored events in ascending identifier order, skipping the first `offset`
events (0 when absent) and keeping at most `limit` events (all of them when
absent), each paired with its log time. -/
theorem events_page_spec {α : Type} (db : DB α)
    (hsort : db.state_events.Pairwise (fun a b => a.identifier ≤ b.identifier)) :
    (∀ limit offset : Option PyNum,
      invalidPageArg limit = true ∨ invalidPageArg offset = true →
      SQLiteStorage.get_events_with_timestamps db limit offset =
        Except.error DBError.invalidNumberInput ∧
      DBError.isInvalidArgument DBError.invalidNumberInput = true) ∧
    (∀ l o : Int, 0 ≤ l → 0 ≤ o →
      SQLiteStorage.get_events_with_timestamps db (some (PyNum.int l)) (some (PyNum.int o)) =
        Except.ok (((db.state_events.drop o.toNat).take l.toNat).map
          (fun r => ⟨r.data, r.log_time⟩))) ∧
    (∀ o : Int, 0 ≤ o →
      SQLiteStorage.get_events_with_timestamps db Option.none (some (PyNum.int o)) =
        Except.ok ((db.state_events.drop o.toNat).map (fun r => ⟨r.data, r.log_time⟩))) ∧
    (∀ l : Int, 0 ≤ l →
      SQLiteStorage.get_events_with_timestamps db (some (PyNum.int l)) Option.none =
        Except.ok ((db.state_events.take l.toNat).map (fun r => ⟨r.data, r.log_time⟩))) ∧
    SQLiteStorage.get_events_with_timestamps db Option.none Option.none =
      Except.ok (db.state_events.map (fun r => ⟨r.data, r.log_time⟩)) := by
  refine ⟨?_, ?_, ?_, ?_, ?_⟩
  · intro limit offset h
    refine ⟨?_, rfl⟩
    rcases h with h | h
    · simp [SQLiteStorage.get_events_with_timestamps, SQLiteStorage.query_events, h, Except.map]
    · by_cases hl : invalidPageArg limit <;>
        simp [SQLiteStorage.get_events_with_timestamps, SQLiteStorage.query_events, h, hl,
          Except.map]
  · intro l o hl ho
    have h1 : invalidPageArg (some (PyNum.int l)) = false := by simp [invalidPageArg]; omega
    have h2 : invalidPageArg (some (PyNum.int o)) = false := by simp [invalidPageArg]; omega
    have h3 : ¬ (l < 0) := by omega
    simp [SQLiteStorage.get_events_with_timestamps, SQLiteStorage.query_events, h1, h2, h3,
      Except.map, Function.comp_def, sortByKey_eq_self _ _ hsort]
  · intro o ho
    have h2 : invalidPageArg (some (PyNum.int o)) = false := by simp [invalidPageArg]; omega
    have h4 : ¬ (o < 0) := by omega
    simp [SQLiteStorage.get_events_with_timestamps, SQLiteStorage.query_events, h2, h4,
      invalidPageArg, Except.map, Function.comp_def, sortByKey_eq_self _ _ hsort]
  · intro l hl
    have h1 : invalidPageArg (some (PyNum.int l)) = false := by simp [invalidPageArg]; omega
    have h3 : ¬ (l < 0) := by omega
    simp [SQLiteStorage.get_events_with_timestamps, SQLiteStorage.query_events, h1, h3,
      invalidPageArg, Except.map, Function.comp_def, sortByKey_eq_self _ _ hsort]
  · simp [SQLiteStorage.get_events_with_timestamps, SQLiteStorage.query_events,
      invalidPageArg, Except.map, sortByKey_eq_self _ _ hsort]

/-- Witness for C5 on the five-event store with the spec example
`limit = 2`, `offset = 1`: the second and third events, ascending. -/
theorem events_page_spec_witness :
    SQLiteStorage.get_events_with_timestamps dbEvents5 (some (PyNum.int 2))
        (some (PyNum.int 1)) =
      Except.ok [⟨"e2", "t2"⟩, ⟨"e3", "t3"⟩] :=
  (events_page_spec dbEvents5 (by decide)).2.1 2 1 (by decide) (by decide)

/-- Claim C6 (counterexample): with the empty filter mapping the claim, as
stated, requires the highest-identifier row (every row matches the empty
conjunction vacuously) — on `dbFilters` that is the state change with
identifier 2 — but the code raises the engine error produced by the
malformed query instead of returning any record. -/
theorem latest_matching_empty_filter_counterexample :
    SQLiteStorage.get_latest_state_change_by_data_field dbFilters [] =
      Except.error DBError.operationalError ∧
    (⟨2, [("type", JVal.jstr "A"), ("amount", JVal.jint 7)], "t2"⟩ :
        StateChangeRow JObj) ∈ dbFilters.state_changes ∧
    decide (SQLiteStorage.get_latest_state_change_by_data_field dbFilters [] =
      Except.ok ⟨2, some [("type", JVal.jstr "A"), ("amount", JVal.jint 7)]⟩) = false := by
  refine ⟨rfl, by decide, by decide⟩

/-- Claim C6 (amended): for every NONEMPTY filter mapping, the two
latest-match queries succeed and return either the zero-identifier,
absent-data sentinel — exactly when no row's decoded payload satisfies
every field equality — or the record built from the matching row with the
greatest identifier. -/
theorem latest_matching_amended (db : DB JObj) (filters : List (String × JVal))
    (h : filters ≠ []) :
    (∃ res, SQLiteStorage.get_latest_state_change_by_data_field db filters = Except.ok res ∧
      ((scMatches db filters = [] ∧ res = ⟨0, Option.none⟩) ∨
        (∃ r, r ∈ scMatches db filters ∧ res = ⟨r.identifier, some r.data⟩ ∧
          ∀ x ∈ scMatches db filters, x.identifier ≤ r.identifier))) ∧
    (∃ res, SQLiteStorage.get_latest_event_by_data_field db filters = Except.ok res ∧
      ((evMatches db filters = [] ∧ res = ⟨0, 0, Option.none⟩) ∨
        (∃ r, r ∈ evMatches db filters ∧
          res = ⟨r.identifier, r.source_statechange_id, some r.data⟩ ∧
          ∀ x ∈ evMatches db filters, x.identifier ≤ r.identifier))) := by
  cases filters with
  | nil => exact absurd rfl h
  | cons f0 rest =>
    constructor
    · rcases maxByKey_spec (fun r => r.identifier) (scMatches db (f0 :: rest)) with
        ⟨hnil, hmax⟩ | ⟨r, hmax, hmem, hle⟩
      · exact ⟨⟨0, Option.none⟩,
          by simp only [SQLiteStorage.get_latest_state_change_by_data_field, hmax],
          Or.inl ⟨hnil, rfl⟩⟩
      · exact ⟨⟨r.identifier, some r.data⟩,
          by simp only [SQLiteStorage.get_latest_state_change_by_data_field, hmax],
          Or.inr ⟨r, hmem, rfl, hle⟩⟩
    · rcases maxByKey_spec (fun r => r.identifier) (evMatches db (f0 :: rest)) with
        ⟨hnil, hmax⟩ | ⟨r, hmax, hmem, hle⟩
      · exact ⟨⟨0, 0, Option.none⟩,
          by simp only [SQLiteStorage.get_latest_event_by_data_field, hmax],
          Or.inl ⟨hnil, rfl⟩⟩
      · exact ⟨⟨r.identifier, r.source_statechange_id, some r.data⟩,
          by simp only [SQLiteStorage.get_latest_event_by_data_field, hmax],
          Or.inr ⟨r, hmem, rfl, hle⟩⟩

/-- Witness for C6 on the spec example: filtering for type A returns the
state change with the higher identifier. -/
theorem latest_matching_amended_witness :
    (∃ res, SQLiteStorage.get_latest_state_change_by_data_field dbFilters
        [("type", JVal.jstr "A")] = Except.ok res ∧
      ((scMatches dbFilters [("type", JVal.jstr "A")] = [] ∧ res = ⟨0, Option.none⟩) ∨
        (∃ r, r ∈ scMatches dbFilters [("type", JVal.jstr "A")] ∧
          res = ⟨r.identifier, some r.data⟩ ∧
          ∀ x ∈ scMatches dbFilters [("type", JVal.jstr "A")], x.identifier ≤ r.identifier))) ∧
    (∃ res, SQLiteStorage.get_latest_event_by_data_field dbFilters
        [("type", JVal.jstr "A")] = Except.ok res ∧
      ((evMatches dbFilters [("type", JVal.jstr "A")] = [] ∧ res = ⟨0, 0, Option.none⟩) ∨
        (∃ r, r ∈ evMatches dbFilters [("type", JVal.jstr "A")] ∧
          res = ⟨r.identifier, r.source_statechange_id, some r.data⟩ ∧
          ∀ x ∈ evMatches dbFilters [("type", JVal.jstr "A")], x.identifier ≤ r.identifier))) :=
  latest_matching_amended dbFilters [("type", JVal.jstr "A")] (by decide)

/-- Reading back a freshly appended state change whose identifier is above
every existing identifier returns exactly its payload. -/
theorem get_single_after_append {α : Type} (db : DB α) (i : Nat) (d : α) (tm : String)
    (hfresh : ∀ r ∈ db.state_changes, r.identifier < i) :
    SQLiteStorage.get_statechanges_by_identifier
        { db with state_changes := db.state_changes ++ [⟨i, d, tm⟩] }
        (PyIdent.ofId i) (PyIdent.ofId i) = Except.ok [d] := by
  have hnil : db.state_changes.filter
      (fun r => decide (i ≤ r.identifier ∧ r.identifier ≤ i)) = [] := by
    rw [List.filter_eq_nil_iff]
    intro a ha
    simp only [decide_eq_true_eq, not_and]
    intro hcon
    exact absurd hcon (Nat.not_le_of_lt (hfresh a ha))
  simp only [SQLiteStorage.get_statechanges_by_identifier, List.filter_append, hnil,
    List.nil_append, List.filter_cons, List.filter_nil]
  simp [sortByKey, insertKeyed]

/-- Claim C7: the serialization boundary stores `serialize o` for every
domain object written through the wrapped `write_state_change` (and the
write is committed), and reading the assigned identifier back through the
wrapped `get_statechanges_by_identifier` yields
`deserialize (serialize o)`, hence `o` itself for a codec satisfying the
round-trip law — callers of the wrapped interface exchange domain objects
only. -/
theorem serialized_write_read_roundtrip {β α : Type} (s : Serializer β α) (c : Conn α)
    (o : β) (t : String) (hser : s.deserialize (s.serialize o) = o) :
    ((s.write_state_change c o t).1).committed = ((s.write_state_change c o t).1).current ∧
    ((s.write_state_change c o t).1).current.state_changes =
      c.current.state_changes ++ [⟨(s.write_state_change c o t).2, s.serialize o, t⟩] ∧
    s.get_statechanges_by_identifier ((s.write_state_change c o t).1).current
        (PyIdent.ofId (s.write_state_change c o t).2)
        (PyIdent.ofId (s.write_state_change c o t).2) =
      Except.ok [o] := by
  refine ⟨rfl, rfl, ?_⟩
  have hq := get_single_after_append c.current (nextStateChangeId c.current) (s.serialize o) t
    (fun r hr => identifier_lt_nextStateChangeId c.current r hr)
  show (SQLiteStorage.get_statechanges_by_identifier
      { c.current with state_changes :=
          c.current.state_changes ++ [⟨nextStateChangeId c.current, s.serialize o, t⟩] }
      (PyIdent.ofId (nextStateChangeId c.current))
      (PyIdent.ofId (nextStateChangeId c.current))).map (fun l => l.map s.deserialize) =
    Except.ok [o]
  rw [hq]
  simp [Except.map, hser]

/-- Witness for C7 with the invertible Nat codec at payload 5 over the
empty store. -/
theorem serialized_write_read_roundtrip_witness :
    ((natSerializer.write_state_change connEmptyNat 5 "t").1).committed =
      ((natSerializer.write_state_change connEmptyNat 5 "t").1).current ∧
    ((natSerializer.write_state_change connEmptyNat 5 "t").1).current.state_changes =
      connEmptyNat.current.state_changes ++
        [⟨(natSerializer.write_state_change connEmptyNat 5 "t").2,
          natSerializer.serialize 5, "t"⟩] ∧
    natSerializer.get_statechanges_by_identifier
        ((natSerializer.write_state_change connEmptyNat 5 "t").1).current
        (PyIdent.ofId (natSerializer.write_state_change connEmptyNat 5 "t").2)
        (PyIdent.ofId (natSerializer.write_state_change connEmptyNat 5 "t").2) =
      Except.ok [5] :=
  serialized_write_read_roundtrip natSerializer connEmptyNat 5 "t" rfl

/-- Claim C8: `get_version` returns the integer stored in the single
version row of the settings table when one exists, and the compiled-in
`RAIDEN_DB_VERSION` when no version row is stored. -/
theorem get_version_spec {α : Type} (db : DB α) :
    (db.settings.filter (fun p => p.1 == "version") = [] →
      SQLiteStorage.get_version db = Except.ok RAIDEN_DB_VERSION) ∧
    (∀ v : String, ∀ n : Int,
      db.settings.filter (fun p => p.1 == "version") = [("version", v)] →
      pyInt? v = some n →
      SQLiteStorage.get_version db = Except.ok n) := by
  constructor
  · intro h
    simp only [SQLiteStorage.get_version, h]
  · intro v n h hv
    simp only [SQLiteStorage.get_version, h, hv]

/-- Witness for C8: a stored version row 7 is returned, and the empty store
falls back to the compiled-in constant. -/
theorem get_version_spec_witness :
    SQLiteStorage.get_version dbVersion7 = Except.ok 7 ∧
    SQLiteStorage.get_version (DB.empty : DB String) = Except.ok RAIDEN_DB_VERSION :=
  ⟨(get_version_spec dbVersion7).2 "7" 7 (by decide) (by decide),
    (get_version_spec (DB.empty : DB String)).1 (by decide)⟩

/-- Claim C9: on an idle autocommit connection, `update_snapshot` with an
identifier matching no stored snapshot completes without raising (the
embedding is total and always returns `Except.ok`) and leaves the
connection — in particular every row of every table, committed and
current — exactly as it was: a silent no-op. -/
theorem update_snapshot_missing_noop {α : Type} (db : DB α) (i : Nat) (p : α)
    (hmiss : ∀ r ∈ db.state_snapshot, r.identifier ≠ i) :
    Conn.update_snapshot
        { committed := db, current := db, sqliteTxnOpen := false, in_transaction := false }
        i p =
      Except.ok
        { committed := db, current := db, sqliteTxnOpen := false, in_transaction := false } := by
  simp only [Conn.update_snapshot, Conn.maybe_commit, Conn.commit,
    map_update_no_match _ _ _ hmiss]
  rfl

/-- Witness for C9: updating the missing snapshot identifier 2 on a store
holding only snapshot 1 returns the connection unchanged. -/
theorem update_snapshot_missing_noop_witness :
    Conn.update_snapshot
        { committed := dbOneSnap, current := dbOneSnap, sqliteTxnOpen := false,
          in_transaction := false }
        2 "newSnap" =
      Except.ok
        { committed := dbOneSnap, current := dbOneSnap, sqliteTxnOpen := false,
          in_transaction := false } :=
  update_snapshot_missing_noop dbOneSnap 2 "newSnap" (by decide)

/-- Claim C10: with the empty filter mapping both latest-match queries fail
with the engine's `OperationalError` (the generated SQL is malformed), for
every store — neither the vacuously-matching highest-identifier row nor the
zero sentinel is returned. -/
theorem empty_filters_engine_error (db : DB JObj) :
    SQLiteStorage.get_latest_event_by_data_field db [] =
      Except.error DBError.operationalError ∧
    SQLiteStorage.get_latest_state_change_by_data_field db [] =
      Except.error DBError.operationalError :=
  ⟨rfl, rfl⟩
